import Mathlib

/-!
Verification of the interpals-api client against its specification.

The definitions below are a shallow embedding of the Python sources
(`interpals_api/cookie.py`, `utils.py`, `session.py`, `api.py`,
`parsers/profile_parser.py`).  Python strings are modelled as Lean
`String`/`List Char`; fallible Python code (exceptions) is modelled with
`Except`; the network is modelled by passing scripted `HttpResponse`
values for each call the code makes.
-/

namespace Interpals

/-! ## Python string primitives

Faithful models of the Python `str` operations the client uses:
`find`, slicing `s[:i]`, `split`, `strip`, `replace`, `lower`,
substring containment (`in`) and `int()`.
-/

/-- Python ASCII whitespace as stripped by `str.strip()`. -/
def pyIsSpace (c : Char) : Bool :=
  c == ' ' || c == '\t' || c == '\n' || c == '\r' || c == '\x0b' || c == '\x0c'

/-- `str.strip()` on a character list. -/
def pyStripList (cs : List Char) : List Char :=
  (((cs.dropWhile pyIsSpace).reverse).dropWhile pyIsSpace).reverse

/-- Python `str.strip()` (whitespace only). -/
def pyStrip (s : String) : String := ⟨pyStripList s.data⟩

/-- ASCII lowering of one character, as Python `str.lower()` does on ASCII. -/
def asciiLowerChar (c : Char) : Char :=
  if 65 ≤ c.toNat && c.toNat ≤ 90 then Char.ofNat (c.toNat + 32) else c

/-- Python `str.lower()` restricted to ASCII (all strings the client
compares are ASCII). -/
def asciiLower (s : String) : String := ⟨s.data.map asciiLowerChar⟩

/-- Helper of `str.find` on a character list: index of the first
occurrence of `c`, `-1` when absent (Python semantics). -/
def pyFindList (c : Char) : List Char → Int
  | [] => -1
  | x :: rest =>
    if x == c then 0
    else
      let r := pyFindList c rest
      if r = -1 then -1 else r + 1

/-- Python `s.find(c)` for a one-character needle. -/
def pyFind (s : String) (c : Char) : Int := pyFindList c s.data

/-- Python slice `s[:i]`: for `i ≥ 0` the first `i` characters, for
negative `i` all but the last `-i` characters (clamped at the ends,
as Python slices are). -/
def pySlice (s : String) (i : Int) : String :=
  if 0 ≤ i then ⟨s.data.take i.toNat⟩
  else ⟨s.data.take (s.data.length - (-i).toNat)⟩

/-- Core of Python `str.split(sep)` for a non-empty separator: scan left
to right; when `sep` starts at the current position, emit the
accumulated piece and skip the remaining `sep.length - 1` separator
characters (tracked by the `skip` counter so recursion stays
structural). -/
def splitSkip (sep : List Char) : List Char → List Char → Nat → List (List Char)
  | [], acc, _ => [acc.reverse]
  | _ :: rest, acc, Nat.succ skip => splitSkip sep rest acc skip
  | c :: rest, acc, 0 =>
    if sep.isPrefixOf (c :: rest) then
      acc.reverse :: splitSkip sep rest [] (sep.length - 1)
    else
      splitSkip sep rest (c :: acc) 0

/-- Python `s.split(sep)` for a non-empty separator. -/
def pySplit (s sep : String) : List String :=
  (splitSkip sep.data s.data [] 0).map (fun l => (⟨l⟩ : String))

/-- Python `s.replace(old, new)` for a non-empty `old`
(equals `new.join(s.split(old))`). -/
def pyReplace (s old new : String) : String :=
  ⟨List.intercalate new.data (splitSkip old.data s.data [] 0)⟩

/-- Substring test on character lists (Python `needle in hay`). -/
def containsList (needle : List Char) : List Char → Bool
  | [] => needle.isEmpty
  | c :: rest => needle.isPrefixOf (c :: rest) || containsList needle rest

/-- Python `needle in hay` for strings. -/
def pyIn (needle hay : String) : Bool := containsList needle.data hay.data

/-- Digit value of an ASCII decimal digit. -/
def pyDigit? (c : Char) : Option Nat :=
  if 48 ≤ c.toNat && c.toNat ≤ 57 then some (c.toNat - 48) else none

/-- Accumulate a decimal number; `none` on the first non-digit. -/
def pyIntAux (acc : Nat) : List Char → Option Nat
  | [] => some acc
  | c :: rest =>
    match pyDigit? c with
    | some d => pyIntAux (acc * 10 + d) rest
    | none => none

/-- Python `int(s)` (base 10): strip whitespace, optional sign, then
decimal digits; anything else raises `ValueError`.  Digit-group
underscores and non-ASCII digits are not used by this client and are
not modelled. -/
def pyInt (s : String) : Except String Int :=
  match pyStripList s.data with
  | [] => .error "ValueError: invalid literal for int"
  | '-' :: rest =>
    match rest, pyIntAux 0 rest with
    | _ :: _, some n => .ok (-(n : Int))
    | _, _ => .error "ValueError: invalid literal for int"
  | '+' :: rest =>
    match rest, pyIntAux 0 rest with
    | _ :: _, some n => .ok (n : Int)
    | _, _ => .error "ValueError: invalid literal for int"
  | cs =>
    match pyIntAux 0 cs with
    | some n => .ok (n : Int)
    | none => .error "ValueError: invalid literal for int"

/-! ## Cookie store (`interpals_api/cookie.py`)

`Cookie` is a Python `dict` subclass; it is modelled as an
insertion-ordered association list with CPython dict semantics:
writing an existing key keeps its position, a new key is appended. -/

/-- The cookie store: ordered `name ↦ value` pairs. -/
abbrev CookieStore := List (String × String)

/-- CPython `d[k] = v`: overwrite in place when `k` is present, append
otherwise.  (A dict never holds a key twice, and every store here is
built from the empty store by this operation, so replacing the first
occurrence is exact.) -/
def dictUpdate (m : CookieStore) (k v : String) : CookieStore :=
  match m with
  | [] => [(k, v)]
  | p :: rest => if p.1 = k then (k, v) :: rest else p :: dictUpdate rest k v

/-- CPython `d.get(k)` / `d[k]` lookup result. -/
def dictGet (m : CookieStore) (k : String) : Option String :=
  match m with
  | [] => none
  | p :: rest => if p.1 = k then some p.2 else dictGet rest k

namespace Cookie

/-- `Cookie.as_string` (cookie.py:15-21): `"; ".join(f"k=v")` over the
store in key order. -/
def as_string (m : CookieStore) : String :=
  String.intercalate "; " (m.map (fun p => p.1 ++ "=" ++ p.2))

/-- The `key=value` extraction shared by `parse_set_cookie`:
`key, value = head.split('=')` (exactly two pieces or `ValueError`),
then `strip` both. -/
def parseKeyValue (head : String) : Except String (String × String) :=
  match pySplit head "=" with
  | [k, v] => .ok (pyStrip k, pyStrip v)
  | _ => .error "ValueError: unpack of split result failed"

/-- `Cookie.parse_set_cookie` (cookie.py:26-35):
`set_cookie[:set_cookie.find(';')].split('=')`, stripping key and
value.  Note Python's `find` returns `-1` when `';'` is absent, and
the slice `[: -1]` then drops the last character. -/
def parse_set_cookie (s : String) : Except String (String × String) :=
  parseKeyValue (pySlice s (pyFind s ';'))

/-- Fold the pieces of one `Set-Cookie` header value into the store;
a `ValueError` from `parse_set_cookie` propagates. -/
def mergeSetCookieValue (obj : CookieStore) : List String → Except String CookieStore
  | [] => .ok obj
  | v :: rest =>
    match parse_set_cookie v with
    | .error e => .error e
    | .ok kv => mergeSetCookieValue (dictUpdate obj kv.1 kv.2) rest

/-- Walk the response headers, merging every header whose name
case-insensitively equals `"set-cookie"`, splitting its value on the
literal `"HttpOnly,"` (cookie.py:37-48). -/
def mergeHeaders (obj : CookieStore) : List (String × String) → Except String CookieStore
  | [] => .ok obj
  | (k, v) :: rest =>
    if asciiLower k = "set-cookie" then
      match mergeSetCookieValue obj (pySplit v "HttpOnly,") with
      | .error e => .error e
      | .ok obj2 => mergeHeaders obj2 rest
    else
      mergeHeaders obj rest

/-- `Cookie.from_response_headers` (cookie.py:37-48). -/
def from_response_headers (headers : List (String × String)) : Except String CookieStore :=
  mergeHeaders [] headers

/-- Python `dict.update(other)`: write every pair of `other` into the
store, in `other`'s order. -/
def update (m other : CookieStore) : CookieStore :=
  other.foldl (fun acc p => dictUpdate acc p.1 p.2) m

end Cookie

/-- A sequence of raw writes folded into an initially empty store. -/
def mergeAll (ops : List (String × String)) : CookieStore :=
  ops.foldl (fun m p => dictUpdate m p.1 p.2) []

/-! ## CSRF extractor (`interpals_api/utils.py`)

`find_csrf_token` applies `re.search` with the fixed pattern
`<meta name="csrf_token" content="(.*?)"` and returns group 1.  The
pattern is one literal followed by a non-greedy group of non-newline
characters and a closing quote, so its semantics are: at the leftmost
occurrence of the literal after which a `"` appears before any
newline, return the characters up to that quote. -/

/-- The literal part of the compiled pattern `re_csfr_token`
(utils.py:9). -/
def csrfLit : List Char := "<meta name=\"csrf_token\" content=\"".data

/-- The literal without its leading `<`, for exposing its cons cell in
proofs. -/
def csrfTail : List Char := "meta name=\"csrf_token\" content=\"".data

/-- Semantics of `(.*?)"` without `re.DOTALL`: the characters up to the
first `"`, provided no newline comes first. -/
def takeGroup : List Char → Option (List Char)
  | [] => none
  | c :: rest =>
    if c = '"' then some []
    else if c = '\n' then none
    else (takeGroup rest).map (fun g => c :: g)

/-- `re.search` for the fixed pattern: try every start position from
the left. -/
def findCsrfAux : List Char → Option (List Char)
  | [] => none
  | c :: rest =>
    if csrfLit.isPrefixOf (c :: rest) then
      match takeGroup ((c :: rest).drop csrfLit.length) with
      | some g => some g
      | none => findCsrfAux rest
    else
      findCsrfAux rest

/-- `find_csrf_token` (utils.py:15-23): the matched group, or `None`. -/
def find_csrf_token (html : String) : Option String :=
  (findCsrfAux html.data).map (fun g => (⟨g⟩ : String))

/-! ## Profile name/age extraction
(`interpals_api/parsers/profile_parser.py`, `_extract_name_age_sex`)

The function below embeds lines 48-58 of `profile_parser.py`, starting
from the already-isolated header text piece (`pieces[1]`):

    piece = piece.replace('y.o.', '')
    na = piece.split(', ')
    if len(na) == 2:
        name, age = na
    else:
        if na.isdigit():
            name, age = None, na
        else:
            name, age = na, None
    age = int(age)

In the `else` branch `na` is the *list* returned by `split`, and lists
have no `.isdigit` method, so Python raises `AttributeError` before
either assignment; had it not, `int(None)` (or `int` of a list) would
raise `TypeError` at the final line.  Both are modelled as errors. -/

def extract_name_age (piece : String) : Except String (Option String × Option Int) :=
  let piece2 := pyReplace piece "y.o." ""
  match pySplit piece2 ", " with
  | [name, age] =>
    match pyInt age with
    | .ok a => .ok (some name, some a)
    | .error e => .error e
  | _ => .error "AttributeError: list object has no attribute isdigit"

/-! ## Session and the login handshake (`interpals_api/session.py`) -/

/-- The `Session` data (session.py:25-44): a username and the two
session cookie values. -/
structure Session where
  username : String
  interpals_sessid : String
  csrf_cookieV2 : String
deriving DecidableEq

/-- `Session.dump` (session.py:60-69): the flat serialization document
written as JSON — three string fields in insertion order.  The JSON
text layer is Python's `json` library (external); the document it
encodes and decodes losslessly is modelled directly. -/
def Session.dump (s : Session) : List (String × String) :=
  [("username", s.username),
   ("interpals_sessid", s.interpals_sessid),
   ("csrf_cookieV2", s.csrf_cookieV2)]

/-- `Session.load` (session.py:71-77): `cls(**kwargs)` requires the
document to carry exactly the three constructor parameters; a missing
key or an extra key raises `TypeError`.  `json.load` yields a dict, so
keys are unique. -/
def Session.load (doc : List (String × String)) : Except String Session :=
  match dictGet doc "username", dictGet doc "interpals_sessid",
        dictGet doc "csrf_cookieV2" with
  | some u, some sid, some c =>
    if doc.length = 3 then .ok ⟨u, sid, c⟩
    else .error "TypeError: unexpected keyword argument"
  | _, _, _ => .error "TypeError: missing required argument"

/-- An HTTP response as the login code observes it. -/
structure HttpResponse where
  status : Nat
  headers : List (String × String)
  body : String

/-- One follow-up GET issued by the login handshake: the URL requested
and the `Cookie` header sent with it. -/
structure GetCall where
  url : String
  cookieHeader : String
deriving DecidableEq

/-- The errors `_request_login_endpoint` / `login` can raise
(errors.py plus the built-in Python exceptions the code can hit). -/
inductive LoginErr where
  | wrongCreds
  | tooManyAttempts
  | sessionErr (msg : String)
  | keyErr (key : String)
  | valueErr (msg : String)
deriving DecidableEq

/-- Header lookup: `requests`/`aiohttp` response headers are
case-insensitive mappings. -/
def headerGet (headers : List (String × String)) (k : String) : Option String :=
  (headers.find? (fun p => asciiLower p.1 == asciiLower k)).map Prod.snd

/-- The site root used by `urljoin` in session.py:146. -/
def loginBase : String := "https://www.interpals.net"

/-- The soft-rejection marker checked at session.py:152. -/
def tooManyMarker : String := "Too many unsuccessful login attempts."

/-- `urllib.parse.urljoin(base, location)` modelled for the shapes this
client meets with base `https://www.interpals.net` (empty path): an
absolute location replaces the base, otherwise the location is joined
onto the origin. -/
def urljoin (base location : String) : String :=
  if containsList "://".data location.data then location
  else if "/".data.isPrefixOf location.data then base ++ location
  else base ++ "/" ++ location

/-- `Session._request_login_endpoint` (session.py:114-153), with the two
network calls scripted: `postResp` is the response to the credentialed
POST, `getResp url` the response the follow-up GET to `url` yields.
Returns the outcome together with the list of follow-up GETs issued
(URL plus the `Cookie` header carried).  Mirrors the source order:
merge `Set-Cookie` first (a `ValueError` there preempts everything),
then branch on the status; on 302 read `Location` (`KeyError` when
absent), GET the joined URL once, and raise
`TooManyLoginAttemptsError` when the fetched body contains the
marker. -/
def request_login_endpoint (cookie : CookieStore) (postResp : HttpResponse)
    (getResp : String → HttpResponse) :
    Except LoginErr CookieStore × List GetCall :=
  match Cookie.from_response_headers postResp.headers with
  | .error e => (.error (.valueErr e), [])
  | .ok setc =>
    let cookie2 := Cookie.update cookie setc
    if postResp.status = 200 then (.error .wrongCreds, [])
    else if postResp.status = 302 then
      match headerGet postResp.headers "Location" with
      | none => (.error (.keyErr "Location"), [])
      | some location =>
        let url := urljoin loginBase location
        let call : GetCall := ⟨url, Cookie.as_string cookie2⟩
        if pyIn tooManyMarker (getResp url).body then
          (.error .tooManyAttempts, [call])
        else
          (.ok cookie2, [call])
    else
      (.error (.sessionErr ("Unknown response status while login: "
        ++ toString postResp.status)), [])

/-- `Session.login` (session.py:79-96) from the point where the initial
page has been fetched: `cookie0` is the store after
`_request_initial_page` merged the root page's cookies.  After the
handshake the constructor arguments are read with
`cookie['interpals_sessid']` and `cookie['csrf_cookieV2']` — plain
dict subscripts, which raise `KeyError` when the key is absent. -/
def Session.login (username : String) (cookie0 : CookieStore)
    (postResp : HttpResponse) (getResp : String → HttpResponse) :
    Except LoginErr Session × List GetCall :=
  match request_login_endpoint cookie0 postResp getResp with
  | (.error e, calls) => (.error e, calls)
  | (.ok cookie, calls) =>
    match dictGet cookie "interpals_sessid" with
    | none => (.error (.keyErr "interpals_sessid"), calls)
    | some sid =>
      match dictGet cookie "csrf_cookieV2" with
      | none => (.error (.keyErr "csrf_cookieV2"), calls)
      | some csrf => (.ok ⟨username, sid, csrf⟩, calls)

/-! ## Paged search iterator (`interpals_api/api.py`, `Api.search`)

The generator loop of api.py:109-124, with the backend scripted as a
function from the requested `offset` to the parsed result rows of that
page.  The preliminary `/app/search` fetch that only obtains a CSRF
token (api.py:103-104) issues no offset request and is outside the
loop.  `fuel` bounds the number of page fetches so the `while True`
loop is total in the embedding; it is never exhausted in any run
stated below. -/

/-- The inner `for user in users` loop (api.py:118-122): yield each row,
increment `offset` per row, stop (returning `true`) once
`offset >= limit`.  Result: (yielded rows, final offset, stopped?). -/
def searchYield : List String → Nat → Nat → List String × Nat × Bool
  | [], offset, _ => ([], offset, false)
  | u :: rest, offset, limit =>
    let offset2 := offset + 1
    if limit ≤ offset2 then ([u], offset2, true)
    else
      let r := searchYield rest offset2 limit
      (u :: r.1, r.2.1, r.2.2)

/-- The `while True` page loop (api.py:109-124).  Returns the yielded
usernames and the list of offsets at which pages were requested. -/
def searchLoop (backend : Nat → List String) (limit : Nat) :
    Nat → Nat → List String × List Nat
  | 0, _ => ([], [])
  | fuel + 1, offset =>
    let users := backend offset
    if users.isEmpty then ([], [offset])
    else
      let y := searchYield users offset limit
      if y.2.2 then (y.1, [offset])
      else
        let r := searchLoop backend limit fuel y.2.1
        (y.1 ++ r.1, offset :: r.2)

/-- `Api.search` from the first page request: offset starts at 0. -/
def search (backend : Nat → List String) (limit fuel : Nat) :
    List String × List Nat :=
  searchLoop backend limit fuel 0

/-- A scripted backend: 10 rows at offset 0, 10 rows at offset 10, and
zero rows everywhere else. -/
def backend3 (offset : Nat) : List String :=
  if offset = 0 then (List.range 10).map (fun i => "u" ++ toString i)
  else if offset = 10 then (List.range 10).map (fun i => "v" ++ toString i)
  else []

/-! ## HTTP call sites and their redirect flag

Every `requests`/`aiohttp` call the client makes, with the
`allow_redirects` value in effect there.  Both libraries follow
redirects by default, so a call site that omits the argument has the
flag `true` (auto-follow).  Transcribed from the source:

* session.py:100  `requests.get(root)`                — omitted → `true`
* session.py:128  `requests.post(login, allow_redirects=False)` — `false`
* session.py:151  `requests.get(location_url)`        — omitted → `true`
* session.py:185  aiohttp `session.get(root)`         — omitted → `true`
* session.py:216  aiohttp `session.post(login, allow_redirects=False)` — `false`
* session.py:240  aiohttp `session.get(location_url)` — omitted → `true`
* api.py:291      `Api._get`  `allow_redirects=False` — `false`
* api.py:301      `Api._post` `allow_redirects=False` — `false`
* api.py:633-645  `ApiAsync._request` `allow_redirects: False` — `false`
-/

structure HttpCallSite where
  component : String
  method : String
  allowRedirects : Bool
deriving DecidableEq

/-- The call sites of the login handshake (sync and async). -/
def loginHandshakeCallSites : List HttpCallSite :=
  [⟨"Session._request_initial_page", "GET", true⟩,
   ⟨"Session._request_login_endpoint.login_post", "POST", false⟩,
   ⟨"Session._request_login_endpoint.location_get", "GET", true⟩,
   ⟨"SessionAsync._request_initial_page", "GET", true⟩,
   ⟨"SessionAsync._request_login_endpoint.login_post", "POST", false⟩,
   ⟨"SessionAsync._request_login_endpoint.location_get", "GET", true⟩]

/-- The call sites of the API transport. -/
def apiTransportCallSites : List HttpCallSite :=
  [⟨"Api._get", "GET", false⟩,
   ⟨"Api._post", "POST", false⟩,
   ⟨"ApiAsync._request", "GET/POST", false⟩]

/-- Every HTTP call site of the client. -/
def clientCallSites : List HttpCallSite :=
  loginHandshakeCallSites ++ apiTransportCallSites

/-! ## Helper lemmas -/

lemma dictGet_dictUpdate_self (m : CookieStore) (k v : String) :
    dictGet (dictUpdate m k v) k = some v := by
  induction m with
  | nil => simp [dictUpdate, dictGet]
  | cons p rest ih =>
    by_cases hp : p.1 = k
    · simp [dictUpdate, dictGet, hp]
    · simp [dictUpdate, dictGet, hp, ih]

lemma keys_dictUpdate (m : CookieStore) (k v : String) :
    (dictUpdate m k v).map Prod.fst =
      if k ∈ m.map Prod.fst then m.map Prod.fst
      else m.map Prod.fst ++ [k] := by
  induction m with
  | nil => simp [dictUpdate]
  | cons p rest ih =>
    by_cases hp : p.1 = k
    · simp [dictUpdate, hp]
    · by_cases hk : k ∈ rest.map Prod.fst
      · simp [dictUpdate, hp, ih, hk, Ne.symm hp]
      · simp [dictUpdate, hp, ih, hk, Ne.symm hp]

lemma nodup_keys_dictUpdate (m : CookieStore) (k v : String)
    (h : (m.map Prod.fst).Nodup) :
    ((dictUpdate m k v).map Prod.fst).Nodup := by
  rw [keys_dictUpdate]
  by_cases hk : k ∈ m.map Prod.fst
  · rwa [if_pos hk]
  · rw [if_neg hk, List.nodup_append]
    exact ⟨h, List.nodup_singleton k, by
      intro x hx hmem
      simp only [List.mem_singleton] at hmem
      subst hmem
      exact hk hx⟩

lemma nodup_keys_fold (ops : List (String × String)) (m : CookieStore)
    (h : (m.map Prod.fst).Nodup) :
    ((ops.foldl (fun acc p => dictUpdate acc p.1 p.2) m).map Prod.fst).Nodup := by
  induction ops generalizing m with
  | nil => exact h
  | cons p rest ih => exact ih _ (nodup_keys_dictUpdate m p.1 p.2 h)

lemma nodup_keys_mergeAll (ops : List (String × String)) :
    ((mergeAll ops).map Prod.fst).Nodup :=
  nodup_keys_fold ops [] (by simp)

lemma splitSkip_ne_nil (sep : List Char) (cs acc : List Char) (skip : Nat) :
    splitSkip sep cs acc skip ≠ [] := by
  induction cs generalizing acc skip with
  | nil => simp [splitSkip]
  | cons c rest ih =>
    cases skip with
    | zero =>
      by_cases h : sep.isPrefixOf (c :: rest)
      · simp [splitSkip, h]
      · simpa [splitSkip, h] using ih _ _
    | succ n => simpa [splitSkip] using ih _ _

lemma splitSkip_chars (sep : List Char) (cs : List Char) :
    ∀ (acc : List Char) (skip : Nat), ∀ p ∈ splitSkip sep cs acc skip,
      ∀ c ∈ p, c ∈ cs ∨ c ∈ acc := by
  induction cs with
  | nil =>
    intro acc skip p hp c hc
    simp only [splitSkip, List.mem_singleton] at hp
    subst hp
    exact Or.inr (List.mem_reverse.mp hc)
  | cons x rest ih =>
    intro acc skip p hp c hc
    cases skip with
    | succ n =>
      rcases ih acc n p (by simpa [splitSkip] using hp) c hc with h | h
      · exact Or.inl (List.mem_cons_of_mem x h)
      · exact Or.inr h
    | zero =>
      by_cases hpre : sep.isPrefixOf (x :: rest)
      · rw [splitSkip, if_pos hpre] at hp
        rcases List.mem_cons.mp hp with rfl | hp2
        · exact Or.inr (List.mem_reverse.mp hc)
        · rcases ih [] (sep.length - 1) p hp2 c hc with h | h
          · exact Or.inl (List.mem_cons_of_mem x h)
          · simp at h
      · rw [splitSkip, if_neg hpre] at hp
        rcases ih (x :: acc) 0 p hp c hc with h | h
        · exact Or.inl (List.mem_cons_of_mem x h)
        · rcases List.mem_cons.mp h with rfl | h2
          · exact Or.inl (List.mem_cons_self _ _)
          · exact Or.inr h2

lemma splitSkip_single_not_mem (c0 : Char) (cs : List Char) :
    ∀ acc : List Char, c0 ∉ cs → splitSkip [c0] cs acc 0 = [acc.reverse ++ cs] := by
  induction cs with
  | nil => intro acc _; simp [splitSkip]
  | cons x rest ih =>
    intro acc h
    have hx : c0 ≠ x := fun he => h (he ▸ List.mem_cons_self _ _)
    have hpre : ¬([c0].isPrefixOf (x :: rest) = true) := by
      simp [List.isPrefixOf]
      exact fun he => hx he
    rw [splitSkip, if_neg hpre, ih (x :: acc) (fun hm => h (List.mem_cons_of_mem x hm))]
    simp

lemma pyFindList_not_mem (c : Char) (cs : List Char) (h : c ∉ cs) :
    pyFindList c cs = -1 := by
  induction cs with
  | nil => rfl
  | cons x rest ih =>
    have hx : ¬(x == c) = true := by
      simp only [beq_iff_eq]
      exact fun he => h (he ▸ List.mem_cons_self _ _)
    rw [pyFindList, if_neg hx, ih (fun hm => h (List.mem_cons_of_mem x hm))]
    rfl

lemma pySlice_neg_one (s : String) : pySlice s (-1) = ⟨s.data.dropLast⟩ := by
  rw [pySlice, if_neg (by norm_num)]
  congr 1
  rw [List.dropLast_eq_take]
  rfl

lemma parse_no_semi (s : String) (h : ';' ∉ s.data) :
    Cookie.parse_set_cookie s = Cookie.parseKeyValue ⟨s.data.dropLast⟩ := by
  rw [Cookie.parse_set_cookie, pyFind, pyFindList_not_mem _ _ h, pySlice_neg_one]

lemma parseKeyValue_no_eq (head : String) (h : '=' ∉ head.data) :
    Cookie.parseKeyValue head = .error "ValueError: unpack of split result failed" := by
  rw [Cookie.parseKeyValue, pySplit]
  have hdata : ("=" : String).data = ['='] := rfl
  rw [hdata, splitSkip_single_not_mem '=' head.data [] h]
  rfl

lemma parse_set_cookie_no_eq (s : String) (h : '=' ∉ s.data) :
    Cookie.parse_set_cookie s = .error "ValueError: unpack of split result failed" := by
  rw [Cookie.parse_set_cookie]
  apply parseKeyValue_no_eq
  intro hmem
  apply h
  rw [pySlice] at hmem
  by_cases hi : 0 ≤ pyFind s ';'
  · rw [if_pos hi] at hmem
    exact List.mem_of_mem_take hmem
  · rw [if_neg hi] at hmem
    exact List.mem_of_mem_take hmem

lemma mergeSetCookieValue_no_eq (obj : CookieStore) (frag : String)
    (h : '=' ∉ frag.data) :
    Cookie.mergeSetCookieValue obj (pySplit frag "HttpOnly,")
      = .error "ValueError: unpack of split result failed" := by
  rw [pySplit]
  rcases hsp : splitSkip ("HttpOnly," : String).data frag.data [] 0 with _ | ⟨p, ps⟩
  · exact absurd hsp (splitSkip_ne_nil _ _ _ _)
  · have hp : '=' ∉ p := by
      intro hc
      rcases splitSkip_chars ("HttpOnly," : String).data frag.data [] 0 p
        (hsp ▸ List.mem_cons_self _ _) '=' hc with h1 | h1
      · exact h h1
      · simp at h1
    rw [List.map_cons, Cookie.mergeSetCookieValue,
      parse_set_cookie_no_eq ⟨p⟩ hp]

lemma from_response_headers_single_no_eq (frag : String) (h : '=' ∉ frag.data) :
    Cookie.from_response_headers [("Set-Cookie", frag)]
      = .error "ValueError: unpack of split result failed" := by
  rw [Cookie.from_response_headers, Cookie.mergeHeaders,
    if_pos (show asciiLower "Set-Cookie" = "set-cookie" by decide),
    mergeSetCookieValue_no_eq [] frag h]

lemma findCsrfAux_not_contains (cs : List Char)
    (h : containsList csrfLit cs = false) : findCsrfAux cs = none := by
  induction cs with
  | nil => rfl
  | cons c rest ih =>
    rw [containsList] at h
    rcases Bool.or_eq_false_iff.mp h with ⟨h1, h2⟩
    rw [findCsrfAux, if_neg (by simp [h1])]
    exact ih h2

lemma csrfLit_cons : csrfLit = '<' :: csrfTail := rfl

lemma takeGroup_boundary (g post : List Char) (hq : '"' ∉ g) (hn : '\n' ∉ g) :
    takeGroup (g ++ '"' :: post) = some g := by
  induction g with
  | nil => simp [takeGroup]
  | cons c rest ih =>
    have hc1 : c ≠ '"' := fun he => hq (he ▸ List.mem_cons_self _ _)
    have hc2 : c ≠ '\n' := fun he => hn (he ▸ List.mem_cons_self _ _)
    rw [List.cons_append, takeGroup, if_neg hc1, if_neg hc2,
      ih (fun hm => hq (List.mem_cons_of_mem c hm))
         (fun hm => hn (List.mem_cons_of_mem c hm))]
    rfl

lemma containsList_of_isPrefixOf {l t : List Char} (h : l.isPrefixOf t = true) :
    containsList l t = true := by
  cases t with
  | nil =>
    cases l with
    | nil => rfl
    | cons a as => simp [List.isPrefixOf] at h
  | cons c rest =>
    rw [containsList, h]
    rfl

lemma findCsrfAux_boundary (g post : List Char) (hq : '"' ∉ g) (hn : '\n' ∉ g) :
    ∀ pre : List Char, containsList csrfLit (pre ++ csrfLit.dropLast) = false →
      findCsrfAux (pre ++ (csrfLit ++ (g ++ '"' :: post))) = some g := by
  intro pre
  induction pre with
  | nil =>
    intro _
    rw [List.nil_append]
    have hdoc : csrfLit ++ (g ++ '"' :: post)
        = '<' :: (csrfTail ++ (g ++ '"' :: post)) := by
      rw [csrfLit_cons, List.cons_append]
    rw [hdoc, findCsrfAux, if_pos ?hpre]
    case hpre =>
      rw [← hdoc, List.isPrefixOf_iff_prefix]
      exact List.prefix_append _ _
    have hdrop : ('<' :: (csrfTail ++ (g ++ '"' :: post))).drop csrfLit.length
        = g ++ '"' :: post := by
      rw [← List.cons_append, ← csrfLit_cons, List.drop_left]
    rw [hdrop, takeGroup_boundary g post hq hn]
  | cons x pre' ih =>
    intro h
    rw [List.cons_append, findCsrfAux]
    by_cases hpre : csrfLit.isPrefixOf (x :: (pre' ++ (csrfLit ++ (g ++ '"' :: post)))) = true
    · exfalso
      have hlit_ne : csrfLit ≠ [] := by rw [csrfLit_cons]; simp
      have hD : pre' ++ (csrfLit ++ (g ++ '"' :: post))
          = (pre' ++ csrfLit.dropLast)
            ++ ([csrfLit.getLast hlit_ne] ++ (g ++ '"' :: post)) := by
        conv_lhs => rw [← List.dropLast_append_getLast hlit_ne]
        simp [List.append_assoc]
      have hp1 : csrfLit <+: (x :: (pre' ++ (csrfLit ++ (g ++ '"' :: post)))) :=
        List.isPrefixOf_iff_prefix.mp hpre
      have hp2 : (x :: (pre' ++ csrfLit.dropLast))
          <+: (x :: (pre' ++ (csrfLit ++ (g ++ '"' :: post)))) := by
        refine ⟨[csrfLit.getLast hlit_ne] ++ (g ++ '"' :: post), ?_⟩
        rw [hD]
        simp [List.append_assoc]
      have hlen : csrfLit.length ≤ (x :: (pre' ++ csrfLit.dropLast)).length := by
        have hlpos : 0 < csrfLit.length := by rw [csrfLit_cons]; simp
        simp only [List.length_cons, List.length_append, List.length_dropLast]
        omega
      have hfin : csrfLit <+: (x :: (pre' ++ csrfLit.dropLast)) :=
        List.prefix_of_prefix_length_le hp1 hp2 hlen
      have hcontra : containsList csrfLit (x :: (pre' ++ csrfLit.dropLast)) = true :=
        containsList_of_isPrefixOf (List.isPrefixOf_iff_prefix.mpr hfin)
      rw [List.cons_append] at h
      rw [h] at hcontra
      cases hcontra
    · rw [if_neg hpre]
      apply ih
      rw [List.cons_append, containsList] at h
      rcases Bool.or_eq_false_iff.mp h with ⟨_, h2⟩
      exact h2

lemma find_csrf_token_boundary (pre g post : List Char)
    (hq : '"' ∉ g) (hn : '\n' ∉ g)
    (hpre : containsList csrfLit (pre ++ csrfLit.dropLast) = false) :
    find_csrf_token ⟨pre ++ (csrfLit ++ (g ++ '"' :: post))⟩ = some ⟨g⟩ := by
  have hdata : (⟨pre ++ (csrfLit ++ (g ++ '"' :: post))⟩ : String).data
      = pre ++ (csrfLit ++ (g ++ '"' :: post)) := rfl
  rw [find_csrf_token, hdata, findCsrfAux_boundary g post hq hn pre hpre]
  rfl

/-! ## Claim theorems -/

/-- C1: evaluation of the header name/age branch of
`ProfileParser._extract_name_age_sex`.  The two-piece path returns the
pieces as name and age ("Jane, 25" ↦ name "Jane", age 25), but both
single-piece inputs ("42" and "Jane") hit the `na.isdigit()` call on
the list returned by `split` and raise `AttributeError` instead of
returning `(None, 42)` resp. `("Jane", None)` as the spec intends. -/
theorem profile_name_age_branch_eval :
    extract_name_age "Jane, 25" = .ok (some "Jane", some 25) ∧
    extract_name_age "42"
      = .error "AttributeError: list object has no attribute isdigit" ∧
    extract_name_age "Jane"
      = .error "AttributeError: list object has no attribute isdigit" :=
  ⟨rfl, rfl, rfl⟩

/-- C2: the status branching of `Session._request_login_endpoint` after
the Set-Cookie headers of the POST response merged successfully:
status 200 raises the wrong-credentials error with no follow-up GET;
status 302 issues exactly one follow-up GET to the `Location` URL
joined onto the site root, carrying the updated cookie header, and
raises the too-many-attempts error exactly when the fetched body
contains the marker; any other status raises the fatal session
error. -/
theorem login_endpoint_status_branches
    (cookie setc : CookieStore) (postResp : HttpResponse)
    (getResp : String → HttpResponse)
    (hmerge : Cookie.from_response_headers postResp.headers = .ok setc) :
    (postResp.status = 200 →
      request_login_endpoint cookie postResp getResp = (.error .wrongCreds, [])) ∧
    (∀ loc, postResp.status = 302 →
      headerGet postResp.headers "Location" = some loc →
      (request_login_endpoint cookie postResp getResp).2 =
        [⟨urljoin loginBase loc, Cookie.as_string (Cookie.update cookie setc)⟩] ∧
      (pyIn tooManyMarker (getResp (urljoin loginBase loc)).body = true →
        (request_login_endpoint cookie postResp getResp).1 = .error .tooManyAttempts) ∧
      (pyIn tooManyMarker (getResp (urljoin loginBase loc)).body = false →
        (request_login_endpoint cookie postResp getResp).1 =
          .ok (Cookie.update cookie setc))) ∧
    (postResp.status ≠ 200 → postResp.status ≠ 302 →
      request_login_endpoint cookie postResp getResp =
        (.error (.sessionErr ("Unknown response status while login: "
          ++ toString postResp.status)), [])) := by
  refine ⟨?_, ?_, ?_⟩
  · intro h200
    simp [request_login_endpoint, hmerge, h200]
  · intro loc h302 hloc
    simp only [request_login_endpoint, hmerge, h302, hloc]
    norm_num
    by_cases hm : pyIn tooManyMarker (getResp (urljoin loginBase loc)).body = true
    · simp [hm]
    · simp [hm]
  · intro h1 h2
    simp [request_login_endpoint, hmerge, h1, h2]

/-- C2 witness: the theorem applied to scripted responses — a 200 POST
response raises wrong-credentials; a 302 POST response whose Location
body carries the marker raises too-many-attempts. -/
theorem login_endpoint_status_branches_witness :
    request_login_endpoint [] ⟨200, [], ""⟩ (fun _ => ⟨200, [], ""⟩)
      = (.error .wrongCreds, []) ∧
    (request_login_endpoint [] ⟨302, [("Location", "/x")], ""⟩
      (fun _ => ⟨200, [], "Sorry. Too many unsuccessful login attempts. Try later."⟩)).1
      = .error .tooManyAttempts :=
  ⟨(login_endpoint_status_branches [] [] ⟨200, [], ""⟩
      (fun _ => ⟨200, [], ""⟩) rfl).1 rfl,
   ((login_endpoint_status_branches [] [] ⟨302, [("Location", "/x")], ""⟩
      (fun _ => ⟨200, [],
        "Sorry. Too many unsuccessful login attempts. Try later."⟩) rfl).2.1
      "/x" rfl rfl).2.1 rfl⟩

/-- C3 counterexample: the claim says every request — including every
step of the login handshake — disables redirect-following; but the
initial-page GET of the handshake (session.py:100) omits
`allow_redirects` and therefore auto-follows (the library default), so
not every call site has the flag disabled. -/
theorem redirect_flag_counterexample :
    (⟨"Session._request_initial_page", "GET", true⟩ : HttpCallSite)
        ∈ clientCallSites ∧
    (clientCallSites.all (fun c => c.allowRedirects == false)) = false := by
  decide

/-- C3 (amended): the API transport call sites (`Api._get`, `Api._post`,
`ApiAsync._request`) and the credentialed login POSTs all pass
`allow_redirects=False`, so 301/302 responses are surfaced as data
there; but the login handshake's initial-page GET and post-302
confirmation GET (sync and async) omit the flag and auto-follow. -/
theorem redirect_flags_by_call_site :
    (apiTransportCallSites.all (fun c => c.allowRedirects == false)) = true ∧
    ((clientCallSites.filter (fun c => c.method == "POST")).all
      (fun c => c.allowRedirects == false)) = true ∧
    (clientCallSites.filter (fun c => c.allowRedirects == true)).map
        (fun c => c.component) =
      ["Session._request_initial_page",
       "Session._request_login_endpoint.location_get",
       "SessionAsync._request_initial_page",
       "SessionAsync._request_login_endpoint.location_get"] := by
  decide

/-- C4 counterexample: a meta tag carrying the csrf token with the
attribute order reversed is not matched — the extractor returns
`none`, not `"abc123"`, so matching is not tolerant of attribute
order. -/
theorem csrf_attr_order_counterexample :
    find_csrf_token "<meta content=\"abc123\" name=\"csrf_token\">" = none :=
  rfl

/-- C4 (amended): `find_csrf_token` matches one fixed literal pattern,
`<meta name="csrf_token" content="`, exactly.  Any document without
that literal yields `none` (and the extractor is total, so it never
raises).  Every document of the form
`pre ++ literal ++ g ++ '"' ++ post` — the token tag embedded anywhere
in a larger page — yields the content `g`, provided `g` carries no
quote or newline and the literal's first occurrence is the one at that
position (no occurrence starts within `pre`, expressed as: the literal
does not occur in `pre` extended by the literal's first 33
characters).  The concrete conjunct instantiates this at a larger
document. -/
theorem csrf_literal_pattern :
    (∀ html : String, containsList csrfLit html.data = false →
      find_csrf_token html = none) ∧
    (∀ pre g post : List Char, '"' ∉ g → '\n' ∉ g →
      containsList csrfLit (pre ++ csrfLit.dropLast) = false →
      find_csrf_token ⟨pre ++ (csrfLit ++ (g ++ '"' :: post))⟩ = some ⟨g⟩) ∧
    find_csrf_token ("<html><head><meta charset=\"utf-8\"><meta name=\"csrf_token\" content=\"abc123\"><title>t</title></head><body>x</body></html>")
      = some "abc123" := by
  refine ⟨?_, find_csrf_token_boundary, rfl⟩
  intro html h
  rw [find_csrf_token, findCsrfAux_not_contains html.data h]
  rfl

/-- C4 witness: the amended theorem applied to a concrete document
without the literal pattern, and to a concrete document embedding the
token tag (via the universal positive conjunct). -/
theorem csrf_literal_pattern_witness :
    find_csrf_token "<p>hello</p>" = none ∧
    find_csrf_token "<div><meta name=\"csrf_token\" content=\"tok99\"></div>"
      = some "tok99" := by
  constructor
  · exact csrf_literal_pattern.1 "<p>hello</p>" (by decide)
  · have h := csrf_literal_pattern.2.1 "<div>".data "tok99".data
      (">".data ++ "</div>".data) (by decide) (by decide) (by decide)
    have hstr : ("<div><meta name=\"csrf_token\" content=\"tok99\"></div>" : String)
        = ⟨"<div>".data ++ (csrfLit ++ ("tok99".data ++ '"' :: (">".data ++ "</div>".data)))⟩ := by
      decide
    rw [hstr, h]

/-- C5 counterexample: a scripted handshake that succeeds (302 with a
Location, no marker in the fetched body) but leaves the store without
`interpals_sessid` makes `Session.login` raise `KeyError` from the
dict subscript — not the generic `SessionError` the claim asserts. -/
theorem login_missing_cookie_keyerror :
    (Session.login "user" []
      ⟨302, [("Set-Cookie", "csrf_cookieV2=zzz;"), ("Location", "/app/")], ""⟩
      (fun _ => ⟨200, [], "welcome"⟩)).1 = .error (.keyErr "interpals_sessid") ∧
    ∀ m, (Except.error (LoginErr.keyErr "interpals_sessid")
          : Except LoginErr Session) ≠ .error (.sessionErr m) := by
  refine ⟨rfl, ?_⟩
  intro m h
  simp at h

/-- C5 (amended): when the handshake otherwise succeeds but an
expected session cookie is absent from the store, `Session.login`
fails with a `KeyError` from the plain dict subscripts of
session.py:95-96: a missing `interpals_sessid` raises
`KeyError 'interpals_sessid'` (that subscript runs first), and a
present `interpals_sessid` with a missing `csrf_cookieV2` raises
`KeyError 'csrf_cookieV2'` — login does not succeed, but the error is
a mapping-lookup error, distinct from the generic session error. -/
theorem login_missing_cookie_raises_keyerror
    (username : String) (cookie0 : CookieStore) (postResp : HttpResponse)
    (getResp : String → HttpResponse) (cookie : CookieStore)
    (calls : List GetCall)
    (hrun : request_login_endpoint cookie0 postResp getResp = (.ok cookie, calls)) :
    (dictGet cookie "interpals_sessid" = none →
      (Session.login username cookie0 postResp getResp).1
        = .error (.keyErr "interpals_sessid")) ∧
    (∀ sid, dictGet cookie "interpals_sessid" = some sid →
      dictGet cookie "csrf_cookieV2" = none →
      (Session.login username cookie0 postResp getResp).1
        = .error (.keyErr "csrf_cookieV2")) ∧
    (∀ k m, (Except.error (LoginErr.keyErr k) : Except LoginErr Session)
        ≠ .error (.sessionErr m)) ∧
    (∀ k s, (Except.error (LoginErr.keyErr k) : Except LoginErr Session)
        ≠ .ok s) := by
  refine ⟨?_, ?_, ?_, ?_⟩
  · intro hmiss
    simp only [Session.login, hrun, hmiss]
  · intro sid hsid hmiss
    simp only [Session.login, hrun, hsid, hmiss]
  · intro k m h
    simp at h
  · intro k s h
    simp at h

/-- C5 witness: the amended theorem applied to two scripted handshakes,
one whose store carries only `csrf_cookieV2` (raising the
`interpals_sessid` KeyError) and one carrying only `interpals_sessid`
(raising the `csrf_cookieV2` KeyError). -/
theorem login_missing_cookie_raises_keyerror_witness :
    (Session.login "usr" []
      ⟨302, [("Set-Cookie", "csrf_cookieV2=zzz;"), ("Location", "/pm.php")], ""⟩
      (fun _ => ⟨200, [], "ok"⟩)).1 = .error (.keyErr "interpals_sessid") ∧
    (Session.login "usr" []
      ⟨302, [("Set-Cookie", "interpals_sessid=sss;"), ("Location", "/pm.php")], ""⟩
      (fun _ => ⟨200, [], "ok"⟩)).1 = .error (.keyErr "csrf_cookieV2") :=
  ⟨(login_missing_cookie_raises_keyerror "usr" []
      ⟨302, [("Set-Cookie", "csrf_cookieV2=zzz;"), ("Location", "/pm.php")], ""⟩
      (fun _ => ⟨200, [], "ok"⟩)
      [("csrf_cookieV2", "zzz")]
      [⟨"https://www.interpals.net/pm.php", "csrf_cookieV2=zzz"⟩] rfl).1 rfl,
   (login_missing_cookie_raises_keyerror "usr" []
      ⟨302, [("Set-Cookie", "interpals_sessid=sss;"), ("Location", "/pm.php")], ""⟩
      (fun _ => ⟨200, [], "ok"⟩)
      [("interpals_sessid", "sss")]
      [⟨"https://www.interpals.net/pm.php", "interpals_sessid=sss"⟩] rfl).2.1
      "sss" rfl rfl⟩

/-- C6: the paged search loop requests its first page at offset 0; on
the scripted backend yielding 10, 10 and then 0 rows it requests
offsets 0, 10 and 20 (one increment per yielded username, not per
page) and yields exactly 20 usernames before stopping on the empty
page; with limit 5 it yields 5 usernames and issues no page request
beyond the first. -/
theorem search_pagination_behaviour :
    (∀ (backend : Nat → List String) (limit fuel : Nat),
      (search backend limit (fuel + 1)).2.head? = some 0) ∧
    (search backend3 1000 10).1.length = 20 ∧
    (search backend3 1000 10).2 = [0, 10, 20] ∧
    (search backend3 5 10).1 = ["u0", "u1", "u2", "u3", "u4"] ∧
    (search backend3 5 10).2 = [0] := by
  refine ⟨?_, rfl, rfl, rfl, rfl⟩
  intro backend limit fuel
  simp only [search, searchLoop]
  by_cases h1 : (backend 0).isEmpty
  · simp [h1]
  · simp only [h1]
    by_cases h2 : (searchYield (backend 0) 0 limit).2.2
    · simp [h2]
    · simp [h2]

/-- C7: cookie stores built by any sequence of `dictUpdate` merges have
pairwise-distinct keys (every stored key appears exactly once); a
later write to the same key always wins; `as_string` renders the store
as `"k1=v1; k2=v2; ..."` in the store's key order; and merging two
Set-Cookie headers carrying the same cookie key leaves the later
value. -/
theorem cookie_store_merge_render (ops : List (String × String)) :
    ((mergeAll ops).map Prod.fst).Nodup ∧
    (∀ k v1 v2, dictGet (dictUpdate (dictUpdate (mergeAll ops) k v1) k v2) k
        = some v2) ∧
    Cookie.as_string (mergeAll ops)
      = String.intercalate "; "
          ((mergeAll ops).map (fun p => p.1 ++ "=" ++ p.2)) ∧
    Cookie.from_response_headers
        [("Set-Cookie", "sid=a;x"), ("Set-Cookie", "sid=b;x")]
      = .ok [("sid", "b")] :=
  ⟨nodup_keys_mergeAll ops,
   fun k _ v2 => dictGet_dictUpdate_self _ k v2,
   rfl, rfl⟩

/-- C8: a cookie fragment with no `=` separator makes
`parse_set_cookie` raise the unpack `ValueError`, and the error
propagates through `from_response_headers` — the merge returns the
error, never a partial store. -/
theorem cookie_merge_no_eq_raises :
    (∀ s : String, '=' ∉ s.data →
      Cookie.parse_set_cookie s
        = .error "ValueError: unpack of split result failed") ∧
    (∀ frag : String, '=' ∉ frag.data →
      Cookie.from_response_headers [("Set-Cookie", frag)]
        = .error "ValueError: unpack of split result failed") :=
  ⟨parse_set_cookie_no_eq, from_response_headers_single_no_eq⟩

/-- C8 witness: the theorem applied to concrete malformed fragments. -/
theorem cookie_merge_no_eq_raises_witness :
    ('=' ∉ "garbage".data) ∧
    Cookie.parse_set_cookie "garbage"
      = .error "ValueError: unpack of split result failed" ∧
    Cookie.from_response_headers [("Set-Cookie", "no-separator")]
      = .error "ValueError: unpack of split result failed" :=
  ⟨by decide, cookie_merge_no_eq_raises.1 "garbage" (by decide),
   cookie_merge_no_eq_raises.2 "no-separator" (by decide)⟩

/-- C9: the session serialization document round-trips losslessly —
`Session.load (Session.dump s)` reconstructs exactly `s` for every
session, with no network involved (both functions are pure). -/
theorem session_dump_load_roundtrip (s : Session) :
    Session.load (Session.dump s) = .ok s := rfl

/-- C10: a Set-Cookie fragment with no `;` is parsed with its final
character dropped (Python `find` yields `-1` and the slice `[: -1]`
removes the last character): parsing `"sid=abcd"` yields
`("sid", "abc")`, while the trailing-`;` fragment `"sid=abcd;"`
preserves the full value. -/
theorem parse_set_cookie_drops_last_char :
    (∀ s : String, ';' ∉ s.data →
      Cookie.parse_set_cookie s = Cookie.parseKeyValue ⟨s.data.dropLast⟩) ∧
    Cookie.parse_set_cookie "sid=abcd" = .ok ("sid", "abc") ∧
    Cookie.parse_set_cookie "sid=abcd;" = .ok ("sid", "abcd") :=
  ⟨parse_no_semi, rfl, rfl⟩

/-- C10 witness: the theorem applied to the concrete fragment
`"sid=abcd"`. -/
theorem parse_set_cookie_drops_last_char_witness :
    (';' ∉ "sid=abcd".data) ∧
    Cookie.parse_set_cookie "sid=abcd"
      = Cookie.parseKeyValue ⟨"sid=abcd".data.dropLast⟩ :=
  ⟨by decide, parse_set_cookie_drops_last_char.1 "sid=abcd" (by decide)⟩

end Interpals
